import Mathlib

/-!
Verification of the swap-request lifecycle engine of the skillswap backend.

The definitions below are a shallow embedding of the relevant JavaScript
source files:
- `backend/models/user.model.js` (swap ledger and feedback ledger),
- the swap controller (`createSwapRequest` request handler),
- the skill model (`createSkill`, `getSkillByName`, `getUserOfferedSkills`),
- `backend/middleware/auth.middleware.js` (`protect`),
- the schema constraints of `backend/models/database.sql`.

The database is modelled as an explicit record of tables; each operation
takes the state and returns a result together with the post-state.  Rows
thrown away by a JavaScript `throw` leave the state unchanged, matching the
fact that every throw in the source happens before the corresponding SQL
write executes.  Fresh UUIDs produced by `crypto.randomUUID()` are passed in
as explicit arguments.
-/

namespace SkillSwap

/-- Status strings accepted by `updateSwapRequestStatus` in the source:
`["pending", "accepted", "rejected", "completed"]`. -/
def statusValues : List String := ["pending", "accepted", "rejected", "completed"]

/-- A row of the `users` table (the columns the swap engine reads). -/
structure UserRow where
  id : String
  isBanned : Bool
  isPublic : Bool
  role : String
deriving DecidableEq, Repr

/-- A row of the `skills` table. -/
structure SkillRow where
  id : String
  name : String
  status : String
deriving DecidableEq, Repr

/-- A row of the `swap_requests` table. -/
structure SwapRow where
  id : String
  senderId : String
  receiverId : String
  offeredSkillId : String
  wantedSkillId : String
  message : Option String
  status : String
deriving DecidableEq, Repr

/-- A row of the `feedback` table. -/
structure FeedbackRow where
  id : String
  swapId : String
  userId : String
  rating : Int
  comment : Option String
deriving DecidableEq, Repr

/-- The database state: the tables the swap engine touches.  The
`offered` list models `user_skills_offered` as (user_id, skill_id) pairs. -/
structure DbState where
  users : List UserRow
  skills : List SkillRow
  offered : List (String × String)
  swaps : List SwapRow
  feedback : List FeedbackRow
deriving DecidableEq, Repr

/-- Errors thrown by the source, one constructor per `throw` site (model
and controller), plus the two middleware failures and the route-level
validator failures.  `uniqueViolation` is the Oracle unique-constraint
error raised by the schema of database.sql. -/
inductive Err where
  | invalidStatusValue
  | swapNotFound
  | notAuthorized
  | onlyReceiver
  | onlyParticipantsComplete
  | onlySenderDelete
  | onlyPendingDelete
  | notParticipantFeedback
  | swapNotCompleted
  | duplicateFeedback
  | feedbackReadFailed
  | userNotFound
  | accountBanned
  | validationFailed
  | invalidRating
  | selfSwap
  | receiverNotFound
  | skillNotOwned
  | skillNotOffered
  | uniqueViolation
deriving DecidableEq, Repr

/-- Embeds `getSwapRequestById`: `SELECT ... FROM swap_requests sr ... WHERE
sr.id = :id`, `rows[0]` or `null`.  The SQL joins to `users` and `skills`
only add display columns and always match given the foreign keys
`fk_swap_sender`, `fk_swap_receiver`, `fk_swap_offered_skill`,
`fk_swap_wanted_skill` of database.sql, so the join is not re-modelled. -/
def getSwapRequestById (st : DbState) (id : String) : Option SwapRow :=
  st.swaps.find? (fun s => s.id == id)

/-- Embeds the SQL `UPDATE swap_requests SET status = :status WHERE id = :id`
of `updateSwapRequestStatus`: the write is keyed on the id only, with no
condition on the current status. -/
def setSwapStatus (st : DbState) (id status : String) : DbState :=
  { st with swaps := st.swaps.map (fun s => if s.id == id then { s with status := status } else s) }

/-- Embeds `updateSwapRequestStatus(id, status, userId)` of user.model.js:
validates the status string, loads the swap, checks that the caller is a
participant, that accept/reject come from the receiver and complete from a
participant, then performs the unconditional update and re-reads the row. -/
def updateSwapRequestStatus (st : DbState) (id status userId : String) :
    Except Err (Option SwapRow) × DbState :=
  if status ∉ statusValues then (.error .invalidStatusValue, st)
  else match getSwapRequestById st id with
  | none => (.error .swapNotFound, st)
  | some swap =>
    if swap.senderId ≠ userId ∧ swap.receiverId ≠ userId then
      (.error .notAuthorized, st)
    else if (status = "accepted" ∨ status = "rejected") ∧ swap.receiverId ≠ userId then
      (.error .onlyReceiver, st)
    else if status = "completed" ∧ swap.senderId ≠ userId ∧ swap.receiverId ≠ userId then
      (.error .onlyParticipantsComplete, st)
    else
      let st2 := setSwapStatus st id status
      (.ok (getSwapRequestById st2 id), st2)

/-- Embeds `acceptSwapRequest(id, userId)`. -/
def acceptSwapRequest (st : DbState) (id userId : String) :
    Except Err (Option SwapRow) × DbState :=
  updateSwapRequestStatus st id "accepted" userId

/-- Embeds `rejectSwapRequest(id, userId)`. -/
def rejectSwapRequest (st : DbState) (id userId : String) :
    Except Err (Option SwapRow) × DbState :=
  updateSwapRequestStatus st id "rejected" userId

/-- Embeds `completeSwapRequest(id, userId)`. -/
def completeSwapRequest (st : DbState) (id userId : String) :
    Except Err (Option SwapRow) × DbState :=
  updateSwapRequestStatus st id "completed" userId

/-- Embeds `deleteSwapRequest(id, userId)`: sender-only, pending-only, then
`DELETE FROM swap_requests WHERE id = :id`; returns `rowsAffected > 0`. -/
def deleteSwapRequest (st : DbState) (id userId : String) :
    Except Err Bool × DbState :=
  match getSwapRequestById st id with
  | none => (.error .swapNotFound, st)
  | some swap =>
    if swap.senderId ≠ userId then (.error .onlySenderDelete, st)
    else if swap.status ≠ "pending" then (.error .onlyPendingDelete, st)
    else
      let remaining := st.swaps.filter (fun s => ¬ (s.id == id))
      (.ok (decide (remaining.length < st.swaps.length)), { st with swaps := remaining })

/-- Embeds `addFeedback(swapId, userId, rating, comment)` of user.model.js:
participant check, completed check, duplicate check
(`SELECT id FROM feedback WHERE swap_id = :swapId AND user_id = :userId`),
then the insert followed by the re-read joined with `users` (which throws
when the author row is absent, after the insert has auto-committed). -/
def addFeedback (st : DbState) (swapId userId : String) (rating : Int)
    (comment : Option String) (freshId : String) :
    Except Err FeedbackRow × DbState :=
  match getSwapRequestById st swapId with
  | none => (.error .swapNotFound, st)
  | some swap =>
    if swap.senderId ≠ userId ∧ swap.receiverId ≠ userId then
      (.error .notParticipantFeedback, st)
    else if swap.status ≠ "completed" then (.error .swapNotCompleted, st)
    else if st.feedback.any (fun f => f.swapId == swapId && f.userId == userId) then
      (.error .duplicateFeedback, st)
    else
      let row : FeedbackRow :=
        { id := freshId, swapId := swapId, userId := userId,
          rating := rating, comment := comment }
      let st2 := { st with feedback := st.feedback ++ [row] }
      match st2.users.find? (fun u => u.id == userId) with
      | none => (.error .feedbackReadFailed, st2)
      | some _ => (.ok row, st2)

/-- Embeds the model-level `createSwapRequest(swapData)`: inserts the row
with literal status `pending` and re-reads it by the fresh id. -/
def createSwapRequest (st : DbState)
    (senderId receiverId offeredSkillId wantedSkillId : String)
    (message : Option String) (freshId : String) :
    Except Err (Option SwapRow) × DbState :=
  let row : SwapRow :=
    { id := freshId, senderId := senderId, receiverId := receiverId,
      offeredSkillId := offeredSkillId, wantedSkillId := wantedSkillId,
      message := message, status := "pending" }
  let st2 := { st with swaps := st.swaps ++ [row] }
  (.ok (getSwapRequestById st2 freshId), st2)

/-- Embeds `getUserById(id)` of user.model.js: the query filters
`WHERE u.id = :id AND u.is_banned = 0`, so a banned user reads as absent. -/
def getUserById (st : DbState) (id : String) : Option UserRow :=
  st.users.find? (fun u => u.id == id && !u.isBanned)

/-- Embeds `getUserOfferedSkills(userId)` of the skill model:
`FROM user_skills_offered uso JOIN skills s ON uso.skill_id = s.id WHERE
uso.user_id = :userId`.  Note the query has no filter on `s.status`. -/
def getUserOfferedSkills (st : DbState) (userId : String) : List SkillRow :=
  (st.offered.filter (fun p => p.1 == userId)).filterMap
    (fun p => st.skills.find? (fun s => s.id == p.2))

/-- Embeds the `protect` middleware of auth.middleware.js: loads the caller
by id with no ban filter, 401 when absent, 403 when `is_banned`. -/
def protect (st : DbState) (actorId : String) : Option Err :=
  match st.users.find? (fun u => u.id == actorId) with
  | none => some .userNotFound
  | some u => if u.isBanned then some .accountBanned else none

/-- Embeds the `POST /api/swaps` pipeline: `protect`, then the controller
`createSwapRequest` (express-validator result check on the three required
ids, self-swap check, receiver lookup via `getUserById`, the two offered-set
membership checks via `getUserOfferedSkills`, then the model insert). -/
def createSwapRequestHandler (st : DbState)
    (senderId receiverId offeredSkillId wantedSkillId : String)
    (message : Option String) (freshId : String) :
    Except Err (Option SwapRow) × DbState :=
  match protect st senderId with
  | some e => (.error e, st)
  | none =>
    if receiverId = "" ∨ offeredSkillId = "" ∨ wantedSkillId = "" then
      (.error .validationFailed, st)
    else if receiverId = senderId then (.error .selfSwap, st)
    else match getUserById st receiverId with
    | none => (.error .receiverNotFound, st)
    | some _ =>
      if ¬ (getUserOfferedSkills st senderId).any (fun s => s.id == offeredSkillId) then
        (.error .skillNotOwned, st)
      else if ¬ (getUserOfferedSkills st receiverId).any (fun s => s.id == wantedSkillId) then
        (.error .skillNotOffered, st)
      else
        createSwapRequest st senderId receiverId offeredSkillId wantedSkillId message freshId

/-- Embeds the `POST /api/swaps/:id/feedback` pipeline: `protect`, then the
express-validator check `rating` integer in [1, 5], then the model
`addFeedback`. -/
def addFeedbackHandler (st : DbState) (actorId swapId : String) (rating : Int)
    (comment : Option String) (freshId : String) :
    Except Err FeedbackRow × DbState :=
  match protect st actorId with
  | some e => (.error e, st)
  | none =>
    if rating < 1 ∨ 5 < rating then (.error .invalidRating, st)
    else addFeedback st swapId actorId rating comment freshId

/-- Model of SQL LOWER over the character list of a string (the source
compares skill names with `LOWER(name) = LOWER(:name)`). -/
def lowerString (s : String) : String := String.mk (s.data.map Char.toLower)

/-- Model of the JavaScript `String.prototype.trim()` applied to the skill
name before insertion. -/
def trimString (s : String) : String :=
  String.mk (((s.data.dropWhile Char.isWhitespace).reverse.dropWhile
    Char.isWhitespace).reverse)

/-- Embeds `getSkillByName(name)` of the skill model:
`WHERE LOWER(name) = LOWER(:name)`, `rows[0]` or `null`. -/
def getSkillByName (st : DbState) (name : String) : Option SkillRow :=
  st.skills.find? (fun s => lowerString s.name == lowerString name)

/-- Embeds `INSERT INTO skills (id, name) VALUES (:id, :name)` under the
schema of database.sql: `name` carries a UNIQUE constraint and `status`
defaults to `pending`; a duplicate exact name raises the constraint error. -/
def insertSkillRow (st : DbState) (id name : String) :
    Except Err SkillRow × DbState :=
  if st.skills.any (fun s => s.name == name) then (.error .uniqueViolation, st)
  else
    let row : SkillRow := { id := id, name := name, status := "pending" }
    (.ok row, { st with skills := st.skills ++ [row] })

/-- Embeds `createSkill(name)` of the skill model: returns the existing
skill when the case-insensitive lookup hits, otherwise inserts the trimmed
name with a fresh id. -/
def createSkill (st : DbState) (name freshId : String) :
    Except Err SkillRow × DbState :=
  match getSkillByName st name with
  | some existing => (.ok existing, st)
  | none => insertSkillRow st freshId (trimString name)

/-! ## Concrete fixtures used by counterexamples and witnesses -/

/-- Fixture: sender account. -/
def userSender : UserRow := { id := "u1", isBanned := false, isPublic := true, role := "user" }

/-- Fixture: receiver account. -/
def userReceiver : UserRow := { id := "u2", isBanned := false, isPublic := true, role := "user" }

/-- Fixture: a skill offered by the sender whose moderation status is still
`pending` (deliberately not approved). -/
def skillGuitar : SkillRow := { id := "k1", name := "Guitar", status := "pending" }

/-- Fixture: a skill offered by the receiver whose moderation status is
`rejected`. -/
def skillSpanish : SkillRow := { id := "k2", name := "Spanish", status := "rejected" }

/-- Fixture: the swap between the two fixture users, at a given status. -/
def swapFixture (status : String) : SwapRow :=
  { id := "s1", senderId := "u1", receiverId := "u2",
    offeredSkillId := "k1", wantedSkillId := "k2", message := none, status := status }

/-- Fixture: a full database state holding the two users, their offered
skills and the fixture swap at a given status. -/
def stateWith (status : String) : DbState :=
  { users := [userSender, userReceiver],
    skills := [skillGuitar, skillSpanish],
    offered := [("u1", "k1"), ("u2", "k2")],
    swaps := [swapFixture status], feedback := [] }

/-- Fixture: the same state except that the receiver account is banned. -/
def stateBannedReceiver : DbState :=
  { stateWith "pending" with users := [userSender, { userReceiver with isBanned := true }] }

/-- Fixture: the same state except that the sender account is banned. -/
def stateBannedSender : DbState :=
  { stateWith "pending" with users := [{ userSender with isBanned := true }, userReceiver] }

/-! ## Helper lemmas -/

/-- Rewriting a row status by id and re-reading the same id returns the row
with the new status. -/
theorem find?_map_setStatus (l : List SwapRow) (id status : String) (sw : SwapRow)
    (h : l.find? (fun s => s.id == id) = some sw) :
    (l.map (fun s => if s.id == id then { s with status := status } else s)).find?
      (fun s => s.id == id) = some { sw with status := status } := by
  induction l with
  | nil => simp at h
  | cons a t ih =>
    by_cases ha : a.id = id
    · rw [List.find?_cons_of_pos _ (by simp [ha])] at h
      obtain rfl := Option.some.inj h
      simp only [List.map_cons]
      rw [if_pos (by simp [ha])]
      exact List.find?_cons_of_pos _ (by simp [ha])
    · rw [List.find?_cons_of_neg _ (by simp [ha])] at h
      simp only [List.map_cons]
      rw [if_neg (by simp [ha])]
      rw [List.find?_cons_of_neg _ (by simp [ha])]
      exact ih h

/-- Reading back a swap after `setSwapStatus` on its id. -/
theorem getSwapRequestById_setSwapStatus (st : DbState) (id status : String) (sw : SwapRow)
    (h : getSwapRequestById st id = some sw) :
    getSwapRequestById (setSwapStatus st id status) id = some { sw with status := status } :=
  find?_map_setStatus st.swaps id status sw h

/-- Successful path of `updateSwapRequestStatus`: when the swap exists, the
status string is legal and every authorization guard passes, the row is
rewritten unconditionally and returned. -/
theorem updateSwapRequestStatus_ok (st : DbState) (id status userId : String) (sw : SwapRow)
    (hfind : getSwapRequestById st id = some sw)
    (hv : status ∈ statusValues)
    (hauth : ¬ (sw.senderId ≠ userId ∧ sw.receiverId ≠ userId))
    (hrecv : ¬ ((status = "accepted" ∨ status = "rejected") ∧ sw.receiverId ≠ userId))
    (hcomp : ¬ (status = "completed" ∧ sw.senderId ≠ userId ∧ sw.receiverId ≠ userId)) :
    updateSwapRequestStatus st id status userId =
      (.ok (some { sw with status := status }), setSwapStatus st id status) := by
  unfold updateSwapRequestStatus
  rw [if_neg (by simpa using hv), hfind]
  dsimp only
  rw [if_neg hauth, if_neg hrecv, if_neg hcomp]
  rw [getSwapRequestById_setSwapStatus st id status sw hfind]

/-! ## Claim C1 -/

/-- C1 counterexample: `rejected` is not terminal in the code.  On a swap
whose status is `rejected`, `acceptSwapRequest` invoked by the receiver
succeeds (no InvalidState failure) and rewrites the status to `accepted`,
refuting the claim that every transition out of `rejected` fails and leaves
the status unchanged. -/
theorem c1_counterexample :
    (acceptSwapRequest (stateWith "rejected") "s1" "u2").1 =
      .ok (some (swapFixture "accepted")) ∧
    (acceptSwapRequest (stateWith "rejected") "s1" "u2").2.swaps =
      [swapFixture "accepted"] :=
  ⟨rfl, rfl⟩

/-- C1 (amended): the status-value invariant does hold — every operation
that writes `swap_requests` keeps each status inside
{pending, accepted, rejected, completed} (`updateSwapRequestStatus`
validates the incoming status string, creation writes the literal
`pending`, deletion only removes rows) — but terminal states are not
enforced: `updateSwapRequestStatus` never consults the current status, so an
authorized actor can transition a `rejected` or `completed` swap. -/
theorem c1_theorem (st : DbState)
    (id status userId receiverId off want freshId : String) (msg : Option String)
    (hinv : ∀ s ∈ st.swaps, s.status ∈ statusValues) :
    (∀ s ∈ (updateSwapRequestStatus st id status userId).2.swaps,
      s.status ∈ statusValues) ∧
    (∀ s ∈ (createSwapRequest st userId receiverId off want msg freshId).2.swaps,
      s.status ∈ statusValues) ∧
    (∀ s ∈ (deleteSwapRequest st id userId).2.swaps,
      s.status ∈ statusValues) := by
  refine ⟨?_, ?_, ?_⟩
  · unfold updateSwapRequestStatus
    split
    · exact hinv
    next hv =>
      split
      · exact hinv
      next sw hfind =>
        split
        · exact hinv
        split
        · exact hinv
        split
        · exact hinv
        intro s hs
        simp only [setSwapStatus, List.mem_map] at hs
        obtain ⟨a, ha, rfl⟩ := hs
        split
        · simpa using not_not.mp hv
        · exact hinv a ha
  · intro s hs
    simp only [createSwapRequest, List.mem_append, List.mem_cons] at hs
    rcases hs with hs | hs
    · exact hinv s hs
    · rcases hs with rfl | hs
      · simp [statusValues]
      · simp at hs
  · unfold deleteSwapRequest
    split
    · exact hinv
    next sw hfind =>
      split
      · exact hinv
      split
      · exact hinv
      intro s hs
      exact hinv s (List.mem_of_mem_filter hs)

/-- C1 witness: the amended invariant applied to the fixture state. -/
theorem c1_witness : (swapFixture "accepted").status ∈ statusValues :=
  (c1_theorem (stateWith "pending") "s1" "accepted" "u2" "u1" "k1" "k2" "s2" none
    (by decide)).1 (swapFixture "accepted") (by decide)

/-! ## Claim C2 -/

/-- C2 counterexample: `completeSwapRequest` invoked by the sender on a swap
that is still `pending` succeeds and writes `completed`, refuting the claim
that completion fails with InvalidState from any non-accepted state. -/
theorem c2_counterexample :
    (completeSwapRequest (stateWith "pending") "s1" "u1").1 =
      .ok (some (swapFixture "completed")) ∧
    (completeSwapRequest (stateWith "pending") "s1" "u1").2.swaps =
      [swapFixture "completed"] :=
  ⟨rfl, rfl⟩

/-- C2 (amended): `completeSwapRequest` checks only that the actor is a
participant of the swap; it succeeds from every current status — in
particular `completed` is directly reachable from `pending`. -/
theorem c2_theorem (st : DbState) (id userId : String) (sw : SwapRow)
    (hfind : getSwapRequestById st id = some sw)
    (hpart : sw.senderId = userId ∨ sw.receiverId = userId) :
    completeSwapRequest st id userId =
      (.ok (some { sw with status := "completed" }), setSwapStatus st id "completed") := by
  apply updateSwapRequestStatus_ok st id "completed" userId sw hfind
  · simp [statusValues]
  · tauto
  · rintro ⟨h | h, -⟩ <;> simp at h
  · tauto

/-- C2 witness: completing the fixture swap from `pending` as the sender. -/
theorem c2_witness :
    completeSwapRequest (stateWith "pending") "s1" "u1" =
      (.ok (some (swapFixture "completed")),
        setSwapStatus (stateWith "pending") "s1" "completed") :=
  c2_theorem (stateWith "pending") "s1" "u1" (swapFixture "pending") rfl (Or.inl rfl)

/-! ## Claim C3 -/

/-- C3 counterexample: the persisted transition is not a conditional update.
Two successive accepts of the same initially pending swap by the receiver
(the serialization of the two concurrent attempts) both succeed; the loser
does not fail with Conflict/InvalidState, it silently overwrites. -/
theorem c3_counterexample :
    (acceptSwapRequest (stateWith "pending") "s1" "u2").1 =
      .ok (some (swapFixture "accepted")) ∧
    (acceptSwapRequest
      ((acceptSwapRequest (stateWith "pending") "s1" "u2").2) "s1" "u2").1 =
      .ok (some (swapFixture "accepted")) :=
  ⟨rfl, rfl⟩

/-- C3 (amended): the status write is `UPDATE swap_requests SET status =
:status WHERE id = :id` with no condition on the current status, so a
transition attempted against a stale status succeeds: accepting an already
accepted swap succeeds again instead of failing. -/
theorem c3_theorem (st : DbState) (id userId : String) (sw : SwapRow)
    (hfind : getSwapRequestById st id = some sw)
    (hrecv : sw.receiverId = userId) :
    acceptSwapRequest st id userId =
      (.ok (some { sw with status := "accepted" }), setSwapStatus st id "accepted") ∧
    acceptSwapRequest (setSwapStatus st id "accepted") id userId =
      (.ok (some { sw with status := "accepted" }),
        setSwapStatus (setSwapStatus st id "accepted") id "accepted") := by
  have hv : "accepted" ∈ statusValues := by simp [statusValues]
  constructor
  · apply updateSwapRequestStatus_ok st id "accepted" userId sw hfind hv <;> tauto
  · have h2 := getSwapRequestById_setSwapStatus st id "accepted" sw hfind
    exact updateSwapRequestStatus_ok _ id "accepted" userId { sw with status := "accepted" }
      h2 hv (by simp [hrecv]) (by simp [hrecv]) (by simp [hrecv])

/-- C3 witness: both accepts of the fixture pending swap succeed. -/
theorem c3_witness :
    acceptSwapRequest (stateWith "pending") "s1" "u2" =
      (.ok (some (swapFixture "accepted")),
        setSwapStatus (stateWith "pending") "s1" "accepted") ∧
    acceptSwapRequest (setSwapStatus (stateWith "pending") "s1" "accepted") "s1" "u2" =
      (.ok (some (swapFixture "accepted")),
        setSwapStatus (setSwapStatus (stateWith "pending") "s1" "accepted") "s1" "accepted") :=
  c3_theorem (stateWith "pending") "s1" "u2" (swapFixture "pending") rfl rfl

/-! ## Claim C4 -/

/-- C4 counterexample: the skill-ownership check of the create handler does
not consult the moderation status.  In the fixture state the offered skill
has status `pending` and the wanted skill has status `rejected`, yet
`createSwapRequestHandler` creates the swap referencing both. -/
theorem c4_counterexample :
    (createSwapRequestHandler (stateWith "pending") "u1" "u2" "k1" "k2" none "s2").1 =
      .ok (some { id := "s2", senderId := "u1", receiverId := "u2",
                  offeredSkillId := "k1", wantedSkillId := "k2",
                  message := none, status := "pending" }) ∧
    (stateWith "pending").skills.find? (fun s => s.id == "k1") = some skillGuitar ∧
    skillGuitar.status = "pending" ∧
    (stateWith "pending").skills.find? (fun s => s.id == "k2") = some skillSpanish ∧
    skillSpanish.status = "rejected" :=
  ⟨rfl, rfl, rfl, rfl, rfl⟩

/-- C4 (amended): creation enforces set membership only — when
`createSwapRequestHandler` succeeds the offered skill is in the sender
offered set and the wanted skill is in the receiver offered set — but the
skills directory status is never checked (`getUserOfferedSkills` has no
`approved` filter), so a swap referencing a pending or rejected skill is
created. -/
theorem c4_theorem (st : DbState) (senderId receiverId off want freshId : String)
    (msg : Option String) (res : Option SwapRow) (st2 : DbState)
    (h : createSwapRequestHandler st senderId receiverId off want msg freshId =
      (.ok res, st2)) :
    (getUserOfferedSkills st senderId).any (fun s => s.id == off) = true ∧
    (getUserOfferedSkills st receiverId).any (fun s => s.id == want) = true := by
  unfold createSwapRequestHandler at h
  split at h
  · simp at h
  split at h
  · simp at h
  split at h
  · simp at h
  split at h
  · simp at h
  split at h
  · simp at h
  split at h
  · simp at h
  rename_i hs hr
  exact ⟨not_not.mp hs, not_not.mp hr⟩

/-- C4 witness: the fixture creation succeeds, so both membership checks
held there. -/
theorem c4_witness :
    (getUserOfferedSkills (stateWith "pending") "u1").any (fun s => s.id == "k1") = true ∧
    (getUserOfferedSkills (stateWith "pending") "u2").any (fun s => s.id == "k2") = true :=
  c4_theorem (stateWith "pending") "u1" "u2" "k1" "k2" "s2" none
    (some { id := "s2", senderId := "u1", receiverId := "u2", offeredSkillId := "k1",
            wantedSkillId := "k2", message := none, status := "pending" })
    ((createSwapRequestHandler (stateWith "pending") "u1" "u2" "k1" "k2" none "s2").2) rfl

/-! ## Claim C5 -/

/-- C5 counterexample: a creation attempt targeting a banned receiver fails
with ReceiverNotFound — `getUserById` filters `is_banned = 0`, so the banned
receiver reads as absent — not with the ActorBanned error kind. -/
theorem c5_counterexample :
    (createSwapRequestHandler stateBannedReceiver "u1" "u2" "k1" "k2" none "s2").1 =
      .error .receiverNotFound ∧
    Err.receiverNotFound ≠ Err.accountBanned :=
  ⟨rfl, by decide⟩

/-- C5 (amended): a banned sender is stopped by the `protect` middleware
with the account-banned error before any swap logic runs, while a banned
receiver makes creation fail with ReceiverNotFound (not ActorBanned); in
both cases the state — in particular every existing swap — is unchanged. -/
theorem c5_theorem (st : DbState) (senderId receiverId off want freshId : String)
    (msg : Option String) :
    (∀ u, st.users.find? (fun v => v.id == senderId) = some u → u.isBanned = true →
      createSwapRequestHandler st senderId receiverId off want msg freshId =
        (.error .accountBanned, st)) ∧
    (protect st senderId = none → ¬ (receiverId = "" ∨ off = "" ∨ want = "") →
      ¬ receiverId = senderId → getUserById st receiverId = none →
      (∃ u ∈ st.users, u.id = receiverId ∧ u.isBanned = true) →
      createSwapRequestHandler st senderId receiverId off want msg freshId =
        (.error .receiverNotFound, st)) := by
  constructor
  · intro u hf hb
    unfold createSwapRequestHandler protect
    rw [hf]
    simp [hb]
  · intro hp hval hself hrecv _
    unfold createSwapRequestHandler
    rw [hp]
    dsimp only
    rw [if_neg hval, if_neg hself, hrecv]

/-- C5 witness: both halves of the amended claim on the fixture states with
a banned sender and a banned receiver. -/
theorem c5_witness :
    createSwapRequestHandler stateBannedSender "u1" "u2" "k1" "k2" none "s2" =
      (.error .accountBanned, stateBannedSender) ∧
    createSwapRequestHandler stateBannedReceiver "u1" "u2" "k1" "k2" none "s2" =
      (.error .receiverNotFound, stateBannedReceiver) :=
  ⟨(c5_theorem stateBannedSender "u1" "u2" "k1" "k2" "s2" none).1
      { userSender with isBanned := true } rfl rfl,
   (c5_theorem stateBannedReceiver "u1" "u2" "k1" "k2" "s2" none).2 rfl
      (by decide) (by decide) rfl
      ⟨{ userReceiver with isBanned := true }, by decide, rfl, rfl⟩⟩

/-! ## Claim C6 -/

/-- C6: the feedback route validates the rating with
`isInt(\x7b min: 1, max: 5 \x7d)` before the controller calls the model,
so for an authenticated non-banned caller every rating outside [1, 5] fails
with the rating-validation error and the state — in particular the feedback
table — is unchanged. -/
theorem c6_theorem (st : DbState) (actorId swapId freshId : String) (rating : Int)
    (comment : Option String)
    (hp : protect st actorId = none)
    (hr : rating < 1 ∨ 5 < rating) :
    addFeedbackHandler st actorId swapId rating comment freshId =
      (.error .invalidRating, st) := by
  unfold addFeedbackHandler
  rw [hp]
  dsimp only
  rw [if_pos hr]

/-- C6 witness: rating 7 on the completed fixture swap is rejected. -/
theorem c6_witness :
    addFeedbackHandler (stateWith "completed") "u2" "s1" 7 none "f1" =
      (.error .invalidRating, stateWith "completed") :=
  c6_theorem (stateWith "completed") "u2" "s1" "f1" 7 none rfl (by decide)

/-! ## Claim C7 -/

/-- C7: for every existing swap and every actor other than the receiver
(including the sender), `acceptSwapRequest` and `rejectSwapRequest` fail —
with the not-authorized error for a non-participant and the
only-the-receiver error for the sender, both authorization (Forbidden)
failures — and the state is unchanged. -/
theorem c7_theorem (st : DbState) (id userId : String) (sw : SwapRow)
    (hfind : getSwapRequestById st id = some sw)
    (hne : userId ≠ sw.receiverId) :
    (∃ e, acceptSwapRequest st id userId = (.error e, st) ∧
      (e = Err.notAuthorized ∨ e = Err.onlyReceiver)) ∧
    (∃ e, rejectSwapRequest st id userId = (.error e, st) ∧
      (e = Err.notAuthorized ∨ e = Err.onlyReceiver)) := by
  have hrcv : sw.receiverId ≠ userId := fun h => hne h.symm
  by_cases hs : sw.senderId = userId
  · refine ⟨⟨Err.onlyReceiver, ?_, Or.inr rfl⟩, ⟨Err.onlyReceiver, ?_, Or.inr rfl⟩⟩ <;>
    · simp only [acceptSwapRequest, rejectSwapRequest]
      unfold updateSwapRequestStatus
      rw [if_neg (by simp [statusValues]), hfind]
      dsimp only
      rw [if_neg (by tauto), if_pos ⟨by simp, hrcv⟩]
  · refine ⟨⟨Err.notAuthorized, ?_, Or.inl rfl⟩, ⟨Err.notAuthorized, ?_, Or.inl rfl⟩⟩ <;>
    · simp only [acceptSwapRequest, rejectSwapRequest]
      unfold updateSwapRequestStatus
      rw [if_neg (by simp [statusValues]), hfind]
      dsimp only
      rw [if_pos (by tauto)]

/-- C7 witness: the sender attempting accept and reject on the fixture
pending swap fails both times with the state unchanged. -/
theorem c7_witness :
    (∃ e, acceptSwapRequest (stateWith "pending") "s1" "u1" =
      (.error e, stateWith "pending") ∧
      (e = Err.notAuthorized ∨ e = Err.onlyReceiver)) ∧
    (∃ e, rejectSwapRequest (stateWith "pending") "s1" "u1" =
      (.error e, stateWith "pending") ∧
      (e = Err.notAuthorized ∨ e = Err.onlyReceiver)) :=
  c7_theorem (stateWith "pending") "s1" "u1" (swapFixture "pending") rfl (by decide)

/-! ## Claim C8 -/

/-- C8: on a completed swap a participant author with no prior feedback row
succeeds exactly once — the first call inserts the row, the second call by
the same author fails with the duplicate error and inserts nothing — and on
a swap still `pending` or `accepted` the same call fails with the
not-completed error with the state unchanged. -/
theorem c8_theorem (st : DbState) (swapId author freshId freshId2 : String)
    (r1 r2 : Int) (cm1 cm2 : Option String) (sw : SwapRow)
    (hfind : getSwapRequestById st swapId = some sw)
    (hpart : sw.senderId = author ∨ sw.receiverId = author) :
    (∀ u, sw.status = "completed" →
      st.feedback.any (fun f => f.swapId == swapId && f.userId == author) = false →
      st.users.find? (fun v => v.id == author) = some u →
      addFeedback st swapId author r1 cm1 freshId =
        (.ok { id := freshId, swapId := swapId, userId := author,
               rating := r1, comment := cm1 },
          { st with feedback := st.feedback ++
            [{ id := freshId, swapId := swapId, userId := author,
               rating := r1, comment := cm1 }] }) ∧
      addFeedback
        { st with feedback := st.feedback ++
          [{ id := freshId, swapId := swapId, userId := author,
             rating := r1, comment := cm1 }] }
        swapId author r2 cm2 freshId2 =
        (.error .duplicateFeedback,
          { st with feedback := st.feedback ++
            [{ id := freshId, swapId := swapId, userId := author,
               rating := r1, comment := cm1 }] })) ∧
    (sw.status = "pending" ∨ sw.status = "accepted" →
      addFeedback st swapId author r1 cm1 freshId = (.error .swapNotCompleted, st)) := by
  constructor
  · intro u hdone hnodup huser
    constructor
    · unfold addFeedback
      rw [hfind]
      dsimp only
      rw [if_neg (by tauto), if_neg (by simp [hdone]), if_neg (by simp [hnodup])]
      rw [huser]
    · have hfind2 : getSwapRequestById
          { st with feedback := st.feedback ++
            [{ id := freshId, swapId := swapId, userId := author,
               rating := r1, comment := cm1 }] } swapId = some sw := hfind
      unfold addFeedback
      rw [hfind2]
      dsimp only
      rw [if_neg (by tauto), if_neg (by simp [hdone]),
        if_pos (by simp [List.any_append])]
  · intro hny
    unfold addFeedback
    rw [hfind]
    dsimp only
    rw [if_neg (by tauto), if_pos (by rcases hny with h | h <;> simp [h])]

/-- C8 witness: feedback on the completed fixture swap succeeds once and
only once for the receiver, and is rejected on the pending fixture. -/
theorem c8_witness :
    (addFeedback (stateWith "completed") "s1" "u2" 5 none "f1" =
      (.ok { id := "f1", swapId := "s1", userId := "u2", rating := 5, comment := none },
        { stateWith "completed" with
          feedback := [{ id := "f1", swapId := "s1", userId := "u2",
                         rating := 5, comment := none }] }) ∧
      addFeedback
        { stateWith "completed" with
          feedback := [{ id := "f1", swapId := "s1", userId := "u2",
                         rating := 5, comment := none }] } "s1" "u2" 4 none "f2" =
        (.error .duplicateFeedback,
          { stateWith "completed" with
            feedback := [{ id := "f1", swapId := "s1", userId := "u2",
                           rating := 5, comment := none }] })) ∧
    addFeedback (stateWith "pending") "s1" "u2" 5 none "f1" =
      (.error .swapNotCompleted, stateWith "pending") :=
  ⟨(c8_theorem (stateWith "completed") "s1" "u2" "f1" "f2" 5 4 none none
      (swapFixture "completed") rfl (Or.inr rfl)).1 userReceiver rfl rfl rfl,
   (c8_theorem (stateWith "pending") "s1" "u2" "f1" "f2" 5 4 none none
      (swapFixture "pending") rfl (Or.inr rfl)).2 (Or.inl rfl)⟩

/-! ## Claim C9 -/

/-- C9: `deleteSwapRequest` succeeds only for the sender of a pending swap;
invoked by the sender on a swap already `accepted` it fails with the
pending-only (InvalidState) error and leaves the state — hence the swap and
its retrievability — unchanged. -/
theorem c9_theorem (st : DbState) (id actor : String) :
    (∀ b st2, deleteSwapRequest st id actor = (.ok b, st2) →
      ∃ sw, getSwapRequestById st id = some sw ∧
        sw.senderId = actor ∧ sw.status = "pending") ∧
    (∀ sw, getSwapRequestById st id = some sw → sw.status = "accepted" →
      sw.senderId = actor →
      deleteSwapRequest st id actor = (.error .onlyPendingDelete, st)) := by
  constructor
  · intro b st2 h
    unfold deleteSwapRequest at h
    split at h
    · simp at h
    next sw hfind =>
      split at h
      · simp at h
      split at h
      · simp at h
      rename_i hsend hpend
      exact ⟨sw, hfind, of_not_not hsend, of_not_not hpend⟩
  · intro sw hfind hacc hsend
    unfold deleteSwapRequest
    rw [hfind]
    dsimp only
    rw [if_neg (by simp [hsend]), if_pos (by simp [hacc])]

/-- C9 witness: deleting the pending fixture succeeds for the sender (so the
guards held), and deleting the accepted fixture fails with the state
unchanged. -/
theorem c9_witness :
    (∃ sw, getSwapRequestById (stateWith "pending") "s1" = some sw ∧
      sw.senderId = "u1" ∧ sw.status = "pending") ∧
    deleteSwapRequest (stateWith "accepted") "s1" "u1" =
      (.error .onlyPendingDelete, stateWith "accepted") :=
  ⟨(c9_theorem (stateWith "pending") "s1" "u1").1 true
      { stateWith "pending" with swaps := [] } rfl,
   (c9_theorem (stateWith "accepted") "s1" "u1").2 (swapFixture "accepted") rfl rfl rfl⟩

/-! ## Claim C10 -/

/-- Fixture: a skill directory holding one approved skill. -/
def skillDirState : DbState :=
  { users := [], skills := [{ id := "k9", name := "Guitar", status := "approved" }],
    offered := [], swaps := [], feedback := [] }

/-- C10: `createSkill` is idempotent on the case-insensitive name: when the
lookup `LOWER(name) = LOWER(:name)` hits an existing row, that row is
returned and nothing is inserted; and running `createSkill` twice with the
same name leaves exactly the state of running it once (the second run either
finds the row inserted by the first, or — when surrounding whitespace makes
the trimmed stored name miss the case-insensitive lookup — hits the UNIQUE
constraint on `skills.name` and changes nothing). -/
theorem c10_theorem (st : DbState) (name fid1 fid2 : String) :
    (∀ sk, getSkillByName st name = some sk →
      createSkill st name fid1 = (.ok sk, st)) ∧
    (createSkill (createSkill st name fid1).2 name fid2).2 =
      (createSkill st name fid1).2 := by
  constructor
  · intro sk hsk
    unfold createSkill
    rw [hsk]
  · cases h : getSkillByName st name with
    | some sk =>
      have h1 : createSkill st name fid1 = (.ok sk, st) := by
        unfold createSkill
        rw [h]
      have h2 : createSkill st name fid2 = (.ok sk, st) := by
        unfold createSkill
        rw [h]
      rw [h1, h2]
    | none =>
      have h1 : createSkill st name fid1 = insertSkillRow st fid1 (trimString name) := by
        unfold createSkill
        rw [h]
      rw [h1]
      unfold insertSkillRow
      cases hdup : st.skills.any (fun s => s.name == trimString name) with
      | true =>
        rw [if_pos (by simp [hdup])]
        have h2 : createSkill st name fid2 = insertSkillRow st fid2 (trimString name) := by
          unfold createSkill
          rw [h]
        dsimp only
        rw [h2]
        unfold insertSkillRow
        rw [if_pos (by simp [hdup])]
      | false =>
        rw [if_neg (by simp [hdup])]
        dsimp only
        have hfind : getSkillByName
            { st with skills := st.skills ++ [⟨fid1, trimString name, "pending"⟩] } name =
            if (lowerString (trimString name) == lowerString name) = true
            then some ⟨fid1, trimString name, "pending"⟩ else none := by
          unfold getSkillByName at h ⊢
          simp only [List.find?_append, h, List.find?]
          cases hm : (lowerString (trimString name) == lowerString name) <;> rfl
        cases hm : (lowerString (trimString name) == lowerString name) with
        | true =>
          have hsome : getSkillByName
              { st with skills := st.skills ++ [⟨fid1, trimString name, "pending"⟩] } name =
              some ⟨fid1, trimString name, "pending"⟩ := by
            rw [hfind, if_pos hm]
          unfold createSkill
          rw [hsome]
        | false =>
          have hnone : getSkillByName
              { st with skills := st.skills ++ [⟨fid1, trimString name, "pending"⟩] } name =
              none := by
            rw [hfind, if_neg (by simp [hm])]
          unfold createSkill
          rw [hnone]
          unfold insertSkillRow
          rw [if_pos (by simp [List.any_append])]

/-- C10 witness: the case-insensitive lookup returns the existing approved
skill without inserting, and a repeated creation is state-idempotent. -/
theorem c10_witness :
    createSkill skillDirState "gUiTaR" "kx" =
      (.ok { id := "k9", name := "Guitar", status := "approved" }, skillDirState) ∧
    (createSkill (createSkill skillDirState "Guitar" "ka").2 "Guitar" "kb").2 =
      (createSkill skillDirState "Guitar" "ka").2 :=
  ⟨(c10_theorem skillDirState "gUiTaR" "kx" "kx").1
      { id := "k9", name := "Guitar", status := "approved" } (by rfl),
   (c10_theorem skillDirState "Guitar" "ka" "kb").2⟩

end SkillSwap
